import Mathlib

/-!
Shallow embedding of the activity-file loading core of `hrv/data.py`
(format dispatch, FIT message normalization, HRMonitorApp text parsing,
RR-interval extraction), together with theorems settling the frozen claims.

Modelling conventions:
* Python runtime errors (`KeyError`, `IndexError`, `ValueError`, `TypeError`,
  `AssertionError`, `UnboundLocalError`) are modelled by the `PyError` type and
  fallible code returns `Except PyError _`.
* Python numbers (ints and floats) are modelled as exact rationals `ℚ`;
  `datetime.datetime` values are modelled by `PyDatetime` (proleptic Gregorian
  calendar, second precision, which is the precision of every value this
  program constructs).
* Python dicts are modelled as association lists in insertion order
  (`List (String × _)`), with `dictInsert` overwriting in place like a dict
  assignment does.
* `str.split(sep)` is modelled by `pySplit` on the underlying character list,
  with exactly CPython's semantics for a one-character separator.
-/

set_option maxHeartbeats 1000000

/-- Python runtime errors raised by the code paths modelled here. -/
inductive PyError where
  | keyError (k : String)
  | indexError (ctx : String)
  | valueError (msg : String)
  | typeError (msg : String)
  | assertionError
  | unboundLocalError (v : String)
deriving DecidableEq, Repr

/-- A decoded datetime value (naive `datetime.datetime`, whole seconds). -/
structure PyDatetime where
  year : Int
  month : Nat
  day : Nat
  hour : Nat
  minute : Nat
  second : Nat
deriving DecidableEq, Repr

/-- A dynamically-typed Python value as it occurs in the message fields and
output mappings of `hrv/data.py`: `None`, a number, a string, or a datetime. -/
inductive Value where
  | null
  | num (q : ℚ)
  | str (s : String)
  | dt (d : PyDatetime)
deriving DecidableEq, Repr

/-- One decoded FIT message: a type name and its fields as a name-to-value
mapping (the dict comprehension of `load_fit`, line 58, materializes each
message exactly like this). -/
structure Message where
  name : String
  fields : List (String × Value)
deriving DecidableEq, Repr

abbrev ActivityMeta := List (String × Value)
abbrev Recordings := List (String × List Value)

/-- Value of a decimal digit character. -/
def digVal (c : Char) : Nat := c.toNat - 48

/-- Value of a list of decimal digit characters, most significant first. -/
def digitsToNat (l : List Char) : Nat := l.foldl (fun n c => 10 * n + digVal c) 0

/-- CPython `str.split(sep)` for a one-character separator, on character
lists: `"".split(",") = [""]`, `"a,,b".split(",") = ["a","","b"]`. -/
def splitChars (sep : Char) : List Char → List (List Char)
  | [] => [[]]
  | c :: cs =>
    match splitChars sep cs with
    | [] => [[]]
    | t :: ts => if c = sep then [] :: t :: ts else (c :: t) :: ts

/-- `s.split(sep)` on strings (one-character separator). -/
def pySplit (s : String) (sep : Char) : List String :=
  (splitChars sep s.data).map (fun l => (⟨l⟩ : String))

/-- Python `int(str)` restricted to the shapes this program feeds it:
an optional leading minus sign followed by decimal digits.  (CPython also
strips whitespace and accepts `+` and `_`; no input constructed by
`hrv/data.py`'s callers of `int` uses those.) -/
def pyInt (s : String) : Except PyError Int :=
  match s.data with
  | '-' :: rest =>
    if rest ≠ [] ∧ rest.all Char.isDigit then .ok (-(digitsToNat rest : Int))
    else .error (.valueError s)
  | l =>
    if l ≠ [] ∧ l.all Char.isDigit then .ok ((digitsToNat l : Int))
    else .error (.valueError s)

/-- Fraction part of `float(str)`: digits with an optional single dot. -/
def pyFloatCore (l : List Char) : Option ℚ :=
  match splitChars '.' l with
  | [a] =>
    if a ≠ [] ∧ a.all Char.isDigit then some ((digitsToNat a : ℚ)) else Option.none
  | [a, b] =>
    if (a ≠ [] ∨ b ≠ []) ∧ a.all Char.isDigit ∧ b.all Char.isDigit then
      some ((digitsToNat a : ℚ) + (digitsToNat b : ℚ) / ((10 : ℚ) ^ b.length))
    else Option.none
  | _ => Option.none

/-- Python `float(str)` restricted to plain decimal literals with an optional
sign (the shape of every numeric token in an HRMonitorApp file or RR CSV). -/
def pyFloat (s : String) : Except PyError ℚ :=
  match s.data with
  | '-' :: rest =>
    match pyFloatCore rest with
    | some q => .ok (-q)
    | Option.none => .error (.valueError s)
  | l =>
    match pyFloatCore l with
    | some q => .ok q
    | Option.none => .error (.valueError s)

/-- Python `d[k]` on a dict: the value, or `KeyError`. -/
def dictGet {α : Type} (d : List (String × α)) (k : String) : Except PyError α :=
  match d.lookup k with
  | some v => .ok v
  | Option.none => .error (.keyError k)

/-- Python `l[i]` for a nonnegative index: the element, or `IndexError`. -/
def pyIndex {α : Type} (l : List α) (i : Nat) (ctx : String) : Except PyError α :=
  match l.get? i with
  | some v => .ok v
  | Option.none => .error (.indexError ctx)

/-- Python `l[0]`. -/
def listGetExc {α : Type} (l : List α) (ctx : String) : Except PyError α :=
  pyIndex l 0 ctx

/-- Python `l[-1]`. -/
def pyLast {α : Type} (l : List α) (ctx : String) : Except PyError α :=
  match l.getLast? with
  | some v => .ok v
  | Option.none => .error (.indexError ctx)

/-- Python `d[k] = v` on a dict: overwrite in place if the key exists,
append otherwise. -/
def dictInsert {α : Type} (d : List (String × α)) (k : String) (v : α) :
    List (String × α) :=
  if (d.lookup k).isSome then d.map (fun p => if p.1 = k then (k, v) else p)
  else d ++ [(k, v)]

/-- Python `dict(pairs)`. -/
def dictOfPairs {α : Type} (pairs : List (String × α)) : List (String × α) :=
  pairs.foldl (fun d p => dictInsert d p.1 p.2) []

/-- Python `d.update(other)`. -/
def dictUpdate {α : Type} (d kvs : List (String × α)) : List (String × α) :=
  kvs.foldl (fun acc p => dictInsert acc p.1 p.2) d

/-- Proleptic Gregorian leap year (as used by `datetime`). -/
def isLeap (y : Int) : Bool := y % 4 == 0 && (y % 100 != 0 || y % 400 == 0)

/-- Days in a month of the proleptic Gregorian calendar. -/
def daysInMonth (y : Int) (m : Nat) : Nat :=
  if m = 2 then (if isLeap y then 29 else 28)
  else if m = 4 ∨ m = 6 ∨ m = 9 ∨ m = 11 then 30 else 31

/-- Days from 1970-01-01 to year `y`, month `m`, day `d` (civil calendar). -/
def daysFromCivil (y : Int) (m d : Nat) : Int :=
  let y' : Int := y - (if m ≤ 2 then 1 else 0)
  let era : Int := y'.fdiv 400
  let yoe : Int := y' - era * 400
  let mp : Int := if m > 2 then (m : Int) - 3 else (m : Int) + 9
  let doy : Int := (153 * mp + 2).fdiv 5 + (d : Int) - 1
  let doe : Int := yoe * 365 + yoe.fdiv 4 - yoe.fdiv 100 + doy
  era * 146097 + doe - 719468

/-- Seconds from 1970-01-01T00:00:00 to a `PyDatetime`. -/
def toEpoch (dt : PyDatetime) : Int :=
  daysFromCivil dt.year dt.month dt.day * 86400
    + (dt.hour : Int) * 3600 + (dt.minute : Int) * 60 + (dt.second : Int)

/-- Inverse of `daysFromCivil`: year, month, day from days since 1970-01-01. -/
def civilFromDays (z0 : Int) : Int × Nat × Nat :=
  let z : Int := z0 + 719468
  let era : Int := z.fdiv 146097
  let doe : Int := z - era * 146097
  let yoe : Int := (doe - doe.fdiv 1460 + doe.fdiv 36524 - doe.fdiv 146096).fdiv 365
  let y : Int := yoe + era * 400
  let doy : Int := doe - (365 * yoe + yoe.fdiv 4 - yoe.fdiv 100)
  let mp : Int := (5 * doy + 2).fdiv 153
  let d : Int := doy - (153 * mp + 2).fdiv 5 + 1
  let m : Int := mp + (if mp < 10 then 3 else -9)
  (y + (if m ≤ 2 then 1 else 0), m.toNat, d.toNat)

/-- Python `dt + datetime.timedelta(seconds=s)` (calendar-correct addition,
modelled through epoch seconds). -/
def addSeconds (dt : PyDatetime) (s : Int) : PyDatetime :=
  let total := toEpoch dt + s
  let days := total.fdiv 86400
  let rem := (total.fmod 86400).toNat
  let c := civilFromDays days
  ⟨c.1, c.2.1, c.2.2, rem / 3600, rem % 3600 / 60, rem % 60⟩

/-- `datetime.datetime.fromisoformat` for the family of strings this program
constructs (`"YYYY-MM-DD HH:MM:SS"`): fixed-width date and time fields,
validated ranges; anything else raises `ValueError`. -/
def pyFromIso (s : String) : Except PyError PyDatetime :=
  match splitChars ' ' s.data with
  | [dpart, tpart] =>
    match splitChars '-' dpart, splitChars ':' tpart with
    | [ys, ms, ds], [hs, mis, ss] =>
      if ys.length = 4 ∧ ys.all Char.isDigit ∧
         ms.length = 2 ∧ ms.all Char.isDigit ∧ ds.length = 2 ∧ ds.all Char.isDigit ∧
         hs.length = 2 ∧ hs.all Char.isDigit ∧ mis.length = 2 ∧ mis.all Char.isDigit ∧
         ss.length = 2 ∧ ss.all Char.isDigit then
        let y : Int := (digitsToNat ys : Int)
        let mo := digitsToNat ms
        let d := digitsToNat ds
        let h := digitsToNat hs
        let mi := digitsToNat mis
        let sec := digitsToNat ss
        if 1 ≤ mo ∧ mo ≤ 12 ∧ 1 ≤ d ∧ d ≤ daysInMonth y mo ∧
           h ≤ 23 ∧ mi ≤ 59 ∧ sec ≤ 59 ∧ 1 ≤ y then
          .ok ⟨y, mo, d, h, mi, sec⟩
        else .error (.valueError s)
      else .error (.valueError s)
    | _, _ => .error (.valueError s)
  | _ => .error (.valueError s)

/-- `pathlib.PurePath(path).name`: the final path component ("" for a root,
`"."` components and empty components dropped, as pathlib's parser does). -/
def pathName (path : String) : String :=
  (((pySplit path '/').filter (fun c => c ≠ "" ∧ c ≠ ".")).getLast?).getD ""

/-- Index of the last `'.'` in a character list, if any. -/
def lastDotIdx (cs : List Char) : Option Nat :=
  ((List.range cs.length).filter (fun i => cs.get? i = some '.')).getLast?

/-- `pathlib.PurePath(path).suffix`: CPython returns `name[i:]` for the last
dot index `i` when `0 < i < len(name) - 1`, and `""` otherwise. -/
def pathSuffix (path : String) : String :=
  let n := (pathName path).data
  match lastDotIdx n with
  | some i => if 0 < i ∧ i + 1 < n.length then (⟨n.drop i⟩ : String) else ""
  | Option.none => ""

/-- `hrv/data.py` lines 34–37. -/
def _is_hrmonitorapp_activity (path : String) : Bool :=
  (pathSuffix path).toLower = ".csv" && (pathName path).startsWith "user_hr_data_"

/-- Which loader `load` dispatches to. -/
inductive Format where
  | fit
  | hrmonitorapp
deriving DecidableEq, Repr

/-- The dispatch decision of `load` (`hrv/data.py` lines 40–46): the branch
structure of `load`, which then calls `load_fit` / `load_hrmonitorapp` (each
modelled separately below, since they consume different kinds of file
content); the fall-through raises `ValueError` ("unsupported activity file
format"). -/
def load_dispatch (path : String) : Except PyError Format :=
  if (pathSuffix path).toLower = ".fit" then .ok .fit
  else if _is_hrmonitorapp_activity path then .ok .hrmonitorapp
  else .error (.valueError ("unsupported activity file format " ++ path))

/-- `load_fit` lines 52–61: all decoded messages of one type, in file order,
each as its field dict (`fit_data.get_messages(t)` preserves order). -/
def messagesOfType (msgs : List Message) (t : String) : List (List (String × Value)) :=
  (msgs.filter (fun m => m.name = t)).map Message.fields

/-- Column names of `pd.DataFrame.from_records(records)`: the union of the
field names, in order of first appearance. -/
def recordColumns (records : List (List (String × Value))) : List String :=
  records.foldl
    (fun cols r => r.foldl (fun cs p => if p.1 ∈ cs then cs else cs ++ [p.1]) cols) []

/-- One column of the records table; a row without the field contributes the
missing-value marker (pandas fills `NaN`), keeping all columns aligned. -/
def columnValues (records : List (List (String × Value))) (c : String) : List Value :=
  records.map (fun r => ((r.lookup c).getD Value.null))

/-- `load_fit` lines 63–67: the recordings mapping, one equal-length column
per observed field name of the `record` messages. -/
def recordingsOf (msgs : List Message) : Recordings :=
  (recordColumns (messagesOfType msgs "record")).map
    (fun c => (c, columnValues (messagesOfType msgs "record") c))

/-- The numeric entries of a column, skipping missing values (`np.nanmean` /
`np.nanmedian` skip `NaN`); a non-numeric entry is a `TypeError`. -/
def numsOf (vs : List Value) : Except PyError (List ℚ) :=
  vs.foldrM
    (fun v acc =>
      match v with
      | Value.num q => .ok (q :: acc)
      | Value.null => .ok acc
      | _ => .error (.typeError "unsupported operand type"))
    []

/-- Insert into a sorted list of rationals. -/
def insertSorted (x : ℚ) : List ℚ → List ℚ
  | [] => [x]
  | y :: ys => if x ≤ y then x :: y :: ys else y :: insertSorted x ys

/-- Ascending sort of a list of rationals. -/
def sortQ (l : List ℚ) : List ℚ := l.foldr insertSorted []

/-- `np.nanmedian` over the non-missing values: middle element of the sorted
values, or the average of the two middle elements for an even count. -/
def medianQ (ns : List ℚ) : ℚ :=
  let s := sortQ ns
  let n := s.length
  if n % 2 = 1 then s.getD (n / 2) 0
  else (s.getD (n / 2 - 1) 0 + s.getD (n / 2) 0) / 2

/-- Python `int(float)`: truncation toward zero. -/
def intTrunc (q : ℚ) : Int := Int.tdiv q.num (q.den : Int)

/-- `load_fit` lines 90–96: mean/median of the `heart_rate` channel when it
exists (both truncated to int), `None`/`None` otherwise.  `int(np.nanmean(x))`
of an empty/all-missing channel raises `ValueError` (NaN to integer). -/
def heartStats : Option (List Value) → Except PyError (Value × Value)
  | Option.none => .ok (Value.null, Value.null)
  | some hr =>
    match numsOf hr with
    | .error e => .error e
    | .ok ns =>
      if ns.length = 0 then .error (.valueError "cannot convert float NaN to integer")
      else
        .ok (Value.num ((intTrunc (ns.sum / (ns.length : ℚ)) : ℚ)),
             Value.num ((intTrunc (medianQ ns) : ℚ)))

/-- One iteration of the event loop, `load_fit` lines 82–88: skip events whose
`event` field is not `"timer"`; a `"start"` overwrites `datetime_start`, a
`"stop_all"` overwrites `datetime_end`. -/
def scanEvent (st : Option Value × Option Value) (ev : List (String × Value)) :
    Except PyError (Option Value × Option Value) :=
  match dictGet ev "event" with
  | .error e => .error e
  | .ok evv =>
    if evv = Value.str "timer" then
      match dictGet ev "event_type" with
      | .error e => .error e
      | .ok etv =>
        if etv = Value.str "start" then
          match dictGet ev "timestamp" with
          | .error e => .error e
          | .ok ts => .ok (some ts, st.2)
        else if etv = Value.str "stop_all" then
          match dictGet ev "timestamp" with
          | .error e => .error e
          | .ok ts => .ok (st.1, some ts)
        else .ok st
    else .ok st

/-- The event loop from a given state. -/
def scanEventsFrom (st : Option Value × Option Value) :
    List (List (String × Value)) → Except PyError (Option Value × Option Value)
  | [] => .ok st
  | ev :: rest =>
    match scanEvent st ev with
    | .error e => .error e
    | .ok st2 => scanEventsFrom st2 rest

/-- `load_fit` lines 80–88: scan all `event` messages starting from
`datetime_start = datetime_end = None`. -/
def scanEvents (events : List (List (String × Value))) :
    Except PyError (Option Value × Option Value) :=
  scanEventsFrom (Option.none, Option.none) events

/-- `time_end - time_start` followed by conversion to integer seconds
(`load_fit` lines 101–104); defined on datetimes, `TypeError` otherwise. -/
def valueSub (a b : Value) : Except PyError Int :=
  match a, b with
  | Value.dt x, Value.dt y => .ok (toEpoch x - toEpoch y)
  | _, _ => .error (.typeError "unsupported operand type for -")

/-- `None`-defaulted optional value. -/
def optValue : Option Value → Value
  | some v => v
  | Option.none => Value.null

/-- The keys of the mapping `load_fit` returns (lines 107–123), in insertion
order. -/
def FIT_KEYS : List String :=
  ["device_manufacturer", "device_model", "datetime_start", "datetime_end",
   "name", "sport", "sub_sport", "duration", "distance",
   "heartrate_mean", "heartrate_median"]

/-- `load_fit` (`hrv/data.py` lines 49–125) over the decoded message list:
group messages by type; build the recordings table from `record` messages;
sport fields from the first `sport` message (`IndexError` if none); device
fields from the first `file_id` message, `garmin_product` only for
manufacturer `"garmin"`; start/end from the timer-event scan; heart-rate
stats from the `heart_rate` channel if present; duration from the first and
last `timestamp` entries (`KeyError` if no such column); distance from the
last `distance` entry (`KeyError` if no such column). -/
def load_fit (msgs : List Message) : Except PyError (ActivityMeta × Recordings) :=
  let recordings := recordingsOf msgs
  match listGetExc (messagesOfType msgs "sport") "sport" with
  | .error e => .error e
  | .ok data_sport =>
  match dictGet data_sport "name" with
  | .error e => .error e
  | .ok nameV =>
  match dictGet data_sport "sport" with
  | .error e => .error e
  | .ok sportV =>
  match dictGet data_sport "sub_sport" with
  | .error e => .error e
  | .ok sub_sportV =>
  match listGetExc (messagesOfType msgs "file_id") "file_id" with
  | .error e => .error e
  | .ok data_file_id =>
  match dictGet data_file_id "manufacturer" with
  | .error e => .error e
  | .ok device_manufacturer =>
  match (if device_manufacturer = Value.str "garmin"
         then dictGet data_file_id "garmin_product"
         else .ok Value.null) with
  | .error e => .error e
  | .ok device_model =>
  match scanEvents (messagesOfType msgs "event") with
  | .error e => .error e
  | .ok (datetime_start, datetime_end) =>
  match heartStats (recordings.lookup "heart_rate") with
  | .error e => .error e
  | .ok (heartrate_mean, heartrate_median) =>
  match dictGet recordings "timestamp" with
  | .error e => .error e
  | .ok timestamps =>
  match listGetExc timestamps "timestamps" with
  | .error e => .error e
  | .ok time_start =>
  match pyLast timestamps "timestamps" with
  | .error e => .error e
  | .ok time_end =>
  match valueSub time_end time_start with
  | .error e => .error e
  | .ok duration =>
  match dictGet recordings "distance" with
  | .error e => .error e
  | .ok distances =>
  match pyLast distances "distance" with
  | .error e => .error e
  | .ok distance =>
    .ok ([("device_manufacturer", device_manufacturer),
          ("device_model", device_model),
          ("datetime_start", optValue datetime_start),
          ("datetime_end", optValue datetime_end),
          ("name", nameV),
          ("sport", sportV),
          ("sub_sport", sub_sportV),
          ("duration", Value.num ((duration : ℚ))),
          ("distance", distance),
          ("heartrate_mean", heartrate_mean),
          ("heartrate_median", heartrate_median)], recordings)

/-- Python list comprehension over a fallible element operation: left to
right, first exception wins. -/
def listMapM {α β : Type} (f : α → Except PyError β) : List α → Except PyError (List β)
  | [] => .ok []
  | x :: xs =>
    match f x with
    | .error e => .error e
    | .ok y =>
      match listMapM f xs with
      | .error e => .error e
      | .ok ys => .ok (y :: ys)

/-- `_get_lines_until_blank` (`hrv/data.py` lines 206–213): strip each line,
stop at the first blank, return the collected stripped lines and the lines
remaining after the blank (the shared file iterator continues there). -/
def getLinesUntilBlank : List String → List String × List String
  | [] => ([], [])
  | l :: rest =>
    let s := l.trim
    if s = "" then ([], rest)
    else
      let r := getLinesUntilBlank rest
      (s :: r.1, r.2)

/-- `_hrmonitorapp_parse_stats` lines 185–186: split each line on commas and
keep `(key.lower(), value)`; a line without a comma raises `IndexError`
(`pair[1]`). -/
def statsPairs (lines : List String) : Except PyError (List (String × String)) :=
  listMapM
    (fun l =>
      match pyIndex (pySplit l ',') 0 "pair", pyIndex (pySplit l ',') 1 "pair" with
      | .ok k, .ok v => .ok (k.toLower, v)
      | .error e, _ => .error e
      | _, .error e => .error e)
    lines

/-- `_hrmonitorapp_date_time_to_datetime` (lines 168–174): assert the date is
8 characters with 3 slash components and the time 8 characters with 3 colon
components, then parse `f"20{yy}-{mm}-{dd} {time_}"` with `fromisoformat`. -/
def _hrmonitorapp_date_time_to_datetime (date time_ : String) :
    Except PyError PyDatetime :=
  if date.length = 8 ∧ (pySplit date '/').length = 3 then
    if time_.length = 8 ∧ (pySplit time_ ':').length = 3 then
      match pySplit date '/' with
      | [mm, dd, yy] =>
        pyFromIso (⟨('2' :: '0' :: yy.data) ++ '-' :: (mm.data ++ '-' :: (dd.data ++ ' ' :: time_.data))⟩ : String)
      | _ => .error .assertionError
    else .error .assertionError
  else .error .assertionError

/-- `_hrmonitorapp_duration_to_seconds` (lines 177–181): assert the value is
8 characters with 3 colon components, parse each as `int`, and return
`hh * 3600 + mm * 60 + ss`. -/
def _hrmonitorapp_duration_to_seconds (duration : String) : Except PyError Int :=
  if duration.length = 8 ∧ (pySplit duration ':').length = 3 then
    match listMapM pyInt (pySplit duration ':') with
    | .error e => .error e
    | .ok [hh, mm, ss] => .ok (hh * 3600 + mm * 60 + ss)
    | .ok _ => .error .assertionError
  else .error .assertionError

/-- `_hrmonitorapp_parse_stats` (lines 184–203): key/value pairs into a dict,
look up `date`, `start`, `duration`, convert, and return the three-entry
stats mapping with `datetime_end = datetime_start + duration`. -/
def _hrmonitorapp_parse_stats (lines : List String) : Except PyError ActivityMeta :=
  match statsPairs lines with
  | .error e => .error e
  | .ok pairs =>
  match dictGet (dictOfPairs pairs) "date" with
  | .error e => .error e
  | .ok date =>
  match dictGet (dictOfPairs pairs) "start" with
  | .error e => .error e
  | .ok time_ =>
  match dictGet (dictOfPairs pairs) "duration" with
  | .error e => .error e
  | .ok durS =>
  match _hrmonitorapp_date_time_to_datetime date time_ with
  | .error e => .error e
  | .ok datetime_start =>
  match _hrmonitorapp_duration_to_seconds durS with
  | .error e => .error e
  | .ok duration =>
    .ok [("datetime_start", Value.dt datetime_start),
         ("datetime_end", Value.dt (addSeconds datetime_start duration)),
         ("duration", Value.num ((duration : ℚ)))]

/-- `_hrmonitorapp_parse_recordings` (lines 216–233): first line is the
header row (lower-cased, `sec → timestamp`, `hr_bpm → heart_rate`); the rest
are parsed as floats (`np.array(values, dtype=float)` raises `ValueError` on
a non-numeric token or ragged rows), transposed, and zipped with the headers
(`zip` truncates to the shorter side, and yields nothing for zero rows). -/
def _hrmonitorapp_parse_recordings (lines : List String) : Except PyError Recordings :=
  let tokens := lines.map (fun l => pySplit l ',')
  match pyIndex tokens 0 "tokens" with
  | .error e => .error e
  | .ok headers0 =>
    let headers1 := headers0.map String.toLower
    let headers := headers1.map
      (fun h => if h = "sec" then "timestamp" else if h = "hr_bpm" then "heart_rate" else h)
    match listMapM (fun row => listMapM pyFloat row) (tokens.drop 1) with
    | .error e => .error e
    | .ok rows =>
      if rows.all (fun r => r.length = (rows.headD []).length) then
        let cols := (List.range (rows.headD []).length).map
          (fun j => rows.map (fun r => Value.num (r.getD j 0)))
        .ok (headers.zip cols)
      else .error (.valueError "setting an array element with a sequence")

/-- `ACTIVITY_SCHEMA` (`hrv/data.py` lines 12–31); `load_hrmonitorapp` seeds
its output with this same all-`None` mapping (lines 237–256, an inline copy
of the schema in the same key order). -/
def ACTIVITY_SCHEMA : ActivityMeta :=
  [("file_hash", Value.null),
   ("name", Value.null), ("sport", Value.null), ("sub_sport", Value.null),
   ("workout", Value.null),
   ("device_manufacturer", Value.null), ("device_model", Value.null),
   ("datetime_start", Value.null), ("datetime_end", Value.null),
   ("duration", Value.null), ("distance", Value.null),
   ("heartrate_mean", Value.null), ("heartrate_median", Value.null)]

/-- The canonical schema keys, in order. -/
def SCHEMA_KEYS : List String :=
  ["file_hash", "name", "sport", "sub_sport", "workout",
   "device_manufacturer", "device_model", "datetime_start", "datetime_end",
   "duration", "distance", "heartrate_mean", "heartrate_median"]

/-- The line loop of `load_hrmonitorapp` (lines 259–267): on a stripped line
`{Statistics}` collect lines until blank, parse them and update the metadata
mapping; on `{History}` collect and parse the recordings; ignore any other
line.  `recs` is the local variable `recordings`, unbound (`Option.none`)
until the `{History}` branch assigns it.  `fuel` only bounds the recursion
depth: every step consumes at least one line, so the caller's
`lines.length + 1` makes the `0` branch unreachable. -/
def hrmScanFuel : Nat → List String → ActivityMeta →
    Option Recordings → Except PyError (ActivityMeta × Option Recordings)
  | 0, _, _, _ => .error (.valueError "recursion depth exceeded")
  | _ + 1, [], data, recs => .ok (data, recs)
  | fuel + 1, line :: rest, data, recs =>
    if line.trim = "{Statistics}" then
      match _hrmonitorapp_parse_stats (getLinesUntilBlank rest).1 with
      | .error e => .error e
      | .ok stats => hrmScanFuel fuel (getLinesUntilBlank rest).2 (dictUpdate data stats) recs
    else if line.trim = "{History}" then
      match _hrmonitorapp_parse_recordings (getLinesUntilBlank rest).1 with
      | .error e => .error e
      | .ok r => hrmScanFuel fuel (getLinesUntilBlank rest).2 data (some r)
    else hrmScanFuel fuel rest data recs

/-- `load_hrmonitorapp` (lines 236–269) over the file's lines: seed the
schema mapping, run the line loop, and return `(data, recordings)` — which
raises `UnboundLocalError` when no `{History}` section ever assigned
`recordings`. -/
def load_hrmonitorapp (lines : List String) : Except PyError (ActivityMeta × Recordings) :=
  match hrmScanFuel (lines.length + 1) lines ACTIVITY_SCHEMA Option.none with
  | .error e => .error e
  | .ok (data, some recordings) => .ok (data, recordings)
  | .ok (_, Option.none) => .error (.unboundLocalError "recordings")

/-- `np.loadtxt` on a plain numeric text file: whitespace/newline-delimited
floating-point tokens, in order. -/
def np_loadtxt (content : String) : Except PyError (List ℚ) :=
  listMapM (fun t => pyFloat (⟨t⟩ : String))
    ((content.data.splitOnP (fun c => c.isWhitespace)).filter (fun t => t ≠ []))

/-- `load_rr_from_csv` (line 152–153). -/
def load_rr_from_csv (content : String) : Except PyError (List ℚ) :=
  np_loadtxt content

/-- The `.csv` branch of `load_rr` (lines 159–162): read the
millisecond values and divide by 1000 to get seconds. -/
def load_rr_csv (content : String) : Except PyError (List ℚ) :=
  match load_rr_from_csv content with
  | .error e => .error e
  | .ok ms => .ok (ms.map (fun x => x / 1000))

/-- `load_rr_from_fit` (lines 137–149): flatten all field values of all `hrv`
messages and drop the `None` entries, preserving order. -/
def load_rr_from_fit (msgs : List Message) : List Value :=
  ((messagesOfType msgs "hrv").map (fun m => m.map Prod.snd)).flatten.filter
    (fun v => v ≠ Value.null)

/-- An event-message field dict with `event == "timer"` and the given
`event_type` and timestamp. -/
def timerEvent (etype : String) (ts : Value) : List (String × Value) :=
  [("event", Value.str "timer"), ("event_type", Value.str etype), ("timestamp", ts)]

/-- Field dict of the `sport` message used by the concrete FIT examples. -/
def sportFieldsA : List (String × Value) :=
  [("name", Value.str "Morning run"), ("sport", Value.str "running"),
   ("sub_sport", Value.str "generic")]

/-- A well-formed decoded FIT message list: one `sport`, one `file_id`
(garmin), one start and one stop event, two `record` messages with
`timestamp`, `heart_rate` and `distance` fields. -/
def fitMsgsA : List Message :=
  [⟨"file_id", [("manufacturer", Value.str "garmin"),
                ("garmin_product", Value.str "fr235")]⟩,
   ⟨"sport", sportFieldsA⟩,
   ⟨"event", timerEvent "start" (Value.dt ⟨2023, 1, 1, 8, 0, 0⟩)⟩,
   ⟨"record", [("timestamp", Value.dt ⟨2023, 1, 1, 8, 0, 0⟩),
               ("heart_rate", Value.num 100), ("distance", Value.num 0)]⟩,
   ⟨"record", [("timestamp", Value.dt ⟨2023, 1, 1, 9, 0, 0⟩),
               ("heart_rate", Value.num 120), ("distance", Value.num 5000)]⟩,
   ⟨"event", timerEvent "stop_all" (Value.dt ⟨2023, 1, 1, 9, 0, 0⟩)⟩]

/-- Like `fitMsgsA`, but with two `timer`/`start` events carrying different
timestamps (08:00:00 and then 08:05:00). -/
def fitMsgsB : List Message :=
  [⟨"file_id", [("manufacturer", Value.str "garmin"),
                ("garmin_product", Value.str "fr235")]⟩,
   ⟨"sport", sportFieldsA⟩,
   ⟨"event", timerEvent "start" (Value.dt ⟨2023, 1, 1, 8, 0, 0⟩)⟩,
   ⟨"event", timerEvent "start" (Value.dt ⟨2023, 1, 1, 8, 5, 0⟩)⟩,
   ⟨"record", [("timestamp", Value.dt ⟨2023, 1, 1, 8, 0, 0⟩),
               ("heart_rate", Value.num 100), ("distance", Value.num 0)]⟩,
   ⟨"record", [("timestamp", Value.dt ⟨2023, 1, 1, 9, 0, 0⟩),
               ("heart_rate", Value.num 120), ("distance", Value.num 5000)]⟩,
   ⟨"event", timerEvent "stop_all" (Value.dt ⟨2023, 1, 1, 9, 0, 0⟩)⟩]

/-- Like `fitMsgsA`, but the `record` messages carry no `distance` field. -/
def fitMsgsC : List Message :=
  [⟨"file_id", [("manufacturer", Value.str "garmin"),
                ("garmin_product", Value.str "fr235")]⟩,
   ⟨"sport", sportFieldsA⟩,
   ⟨"event", timerEvent "start" (Value.dt ⟨2023, 1, 1, 8, 0, 0⟩)⟩,
   ⟨"record", [("timestamp", Value.dt ⟨2023, 1, 1, 8, 0, 0⟩),
               ("heart_rate", Value.num 100)]⟩,
   ⟨"record", [("timestamp", Value.dt ⟨2023, 1, 1, 9, 0, 0⟩),
               ("heart_rate", Value.num 120)]⟩,
   ⟨"event", timerEvent "stop_all" (Value.dt ⟨2023, 1, 1, 9, 0, 0⟩)⟩]

/-- Lines of a complete HRMonitorApp export with both sections. -/
def hrmLinesA : List String :=
  ["{Statistics}", "Date,01/02/23", "Start,10:00:00", "Duration,01:30:00", "",
   "{History}", "Sec,HR_BPM", "0,60", "1,61", ""]

/-- Lines of an HRMonitorApp export with a `{Statistics}` section but no
`{History}` section. -/
def hrmLinesNoHistory : List String :=
  ["{Statistics}", "Date,01/02/23", "Start,10:00:00", "Duration,01:30:00", ""]

/-- The metadata mapping `load_fit` returns on `fitMsgsA`. -/
def fitMetaA : ActivityMeta :=
  [("device_manufacturer", Value.str "garmin"),
   ("device_model", Value.str "fr235"),
   ("datetime_start", Value.dt ⟨2023, 1, 1, 8, 0, 0⟩),
   ("datetime_end", Value.dt ⟨2023, 1, 1, 9, 0, 0⟩),
   ("name", Value.str "Morning run"),
   ("sport", Value.str "running"),
   ("sub_sport", Value.str "generic"),
   ("duration", Value.num 3600),
   ("distance", Value.num 5000),
   ("heartrate_mean", Value.num 110),
   ("heartrate_median", Value.num 110)]

/-- The recordings mapping `load_fit` returns on `fitMsgsA`. -/
def fitRecsA : Recordings :=
  [("timestamp", [Value.dt ⟨2023, 1, 1, 8, 0, 0⟩, Value.dt ⟨2023, 1, 1, 9, 0, 0⟩]),
   ("heart_rate", [Value.num 100, Value.num 120]),
   ("distance", [Value.num 0, Value.num 5000])]

/-- The metadata mapping `load_hrmonitorapp` returns on `hrmLinesA`. -/
def hrmMetaA : ActivityMeta :=
  [("file_hash", Value.null),
   ("name", Value.null), ("sport", Value.null), ("sub_sport", Value.null),
   ("workout", Value.null),
   ("device_manufacturer", Value.null), ("device_model", Value.null),
   ("datetime_start", Value.dt ⟨2023, 1, 2, 10, 0, 0⟩),
   ("datetime_end", Value.dt ⟨2023, 1, 2, 11, 30, 0⟩),
   ("duration", Value.num 5400),
   ("distance", Value.null),
   ("heartrate_mean", Value.null), ("heartrate_median", Value.null)]

/-- The recordings mapping `load_hrmonitorapp` returns on `hrmLinesA`. -/
def hrmRecsA : Recordings :=
  [("timestamp", [Value.num 0, Value.num 1]),
   ("heart_rate", [Value.num 60, Value.num 61])]

theorem lookup_isSome_iff {α : Type} (l : List (String × α)) (k : String) :
    (l.lookup k).isSome = true ↔ k ∈ l.map Prod.fst := by
  induction l with
  | nil => simp [List.lookup]
  | cons p rest ih =>
    obtain ⟨a, b⟩ := p
    by_cases h : k = a
    · subst h; simp [List.lookup]
    · have hb : (k == a) = false := beq_eq_false_iff_ne.mpr h
      simp only [List.lookup, hb, List.map_cons, List.mem_cons]
      rw [ih]
      simp [h]

theorem lookup_eq_none_of_not_mem {α : Type} (l : List (String × α)) (k : String)
    (h : k ∉ l.map Prod.fst) : l.lookup k = Option.none := by
  rcases ho : l.lookup k with _ | v
  · rfl
  · exact absurd ((lookup_isSome_iff l k).mp (by simp [ho])) h

theorem load_fit_ok_eq (msgs : List Message) (d : ActivityMeta) (r : Recordings)
    (h : load_fit msgs = .ok (d, r)) :
    r = recordingsOf msgs ∧
    d.map Prod.fst = FIT_KEYS ∧
    (∃ ts, dictGet (recordingsOf msgs) "timestamp" = .ok ts) ∧
    (∃ ds, dictGet (recordingsOf msgs) "distance" = .ok ds) ∧
    ∃ m, listGetExc (messagesOfType msgs "sport") "sport" = .ok m ∧
      ∃ vn vs vss, dictGet m "name" = .ok vn ∧ dictGet m "sport" = .ok vs ∧
        dictGet m "sub_sport" = .ok vss ∧
        d.lookup "name" = some vn ∧ d.lookup "sport" = some vs ∧
        d.lookup "sub_sport" = some vss := by
  simp only [load_fit] at h
  iterate 20 (all_goals try split at h)
  all_goals try exact Except.noConfusion h
  all_goals injection h with h1
  all_goals injection h1 with hd hr
  all_goals subst hd
  all_goals subst hr
  all_goals
    refine ⟨rfl, rfl, ⟨_, by assumption⟩, ⟨_, by assumption⟩,
            _, by assumption, _, _, _, by assumption, by assumption, by assumption,
            rfl, rfl, rfl⟩

theorem recordingsOf_keys (msgs : List Message) :
    (recordingsOf msgs).map Prod.fst = recordColumns (messagesOfType msgs "record") := by
  simp only [recordingsOf, List.map_map]
  exact List.map_id _

theorem recordingsOf_empty (msgs : List Message)
    (h : messagesOfType msgs "record" = []) : recordingsOf msgs = [] := by
  simp [recordingsOf, h, recordColumns]

theorem mem_fieldFold (r : List (String × Value)) : ∀ (cs : List String) (k : String),
    k ∈ r.foldl (fun cs p => if p.1 ∈ cs then cs else cs ++ [p.1]) cs →
    k ∈ cs ∨ k ∈ r.map Prod.fst := by
  induction r with
  | nil => intro cs k h; exact Or.inl h
  | cons p rest ih =>
    intro cs k h
    simp only [List.foldl_cons] at h
    rcases ih _ k h with h1 | h1
    · by_cases hp : p.1 ∈ cs
      · rw [if_pos hp] at h1; exact Or.inl h1
      · rw [if_neg hp] at h1
        rcases List.mem_append.mp h1 with h2 | h2
        · exact Or.inl h2
        · simp only [List.mem_singleton] at h2
          subst h2
          right; simp
    · right; simp [h1]

theorem mem_recordColumns (records : List (List (String × Value))) (k : String) :
    k ∈ recordColumns records → ∃ r ∈ records, k ∈ r.map Prod.fst := by
  unfold recordColumns
  suffices hgen : ∀ cs, k ∈ records.foldl
      (fun cols r => r.foldl (fun cs p => if p.1 ∈ cs then cs else cs ++ [p.1]) cols) cs →
      k ∈ cs ∨ ∃ r ∈ records, k ∈ r.map Prod.fst by
    intro hm
    rcases hgen [] hm with h1 | h1
    · exact absurd h1 (List.not_mem_nil k)
    · exact h1
  induction records with
  | nil => intro cs h; exact Or.inl h
  | cons r rest ih =>
    intro cs h
    simp only [List.foldl_cons] at h
    rcases ih _ h with h1 | h1
    · rcases mem_fieldFold r cs k h1 with h2 | h2
      · exact Or.inl h2
      · exact Or.inr ⟨r, by simp, h2⟩
    · obtain ⟨r2, hr2, hk2⟩ := h1
      exact Or.inr ⟨r2, by simp [hr2], hk2⟩

/-- C5: a FIT input with zero `record`-type messages makes `load_fit` fail
with an error (in the model, the `KeyError` of the `timestamp` column lookup
used to derive the duration, or an earlier structural error) and return no
result. -/
theorem C5_no_records_fails (msgs : List Message)
    (h : messagesOfType msgs "record" = []) : ∃ e, load_fit msgs = .error e := by
  rcases hlf : load_fit msgs with e | p
  · exact ⟨e, rfl⟩
  · obtain ⟨d, r⟩ := p
    obtain ⟨-, -, ⟨ts, hts⟩, -, -⟩ := load_fit_ok_eq msgs d r hlf
    rw [recordingsOf_empty msgs h] at hts
    simp [dictGet, List.lookup] at hts

/-- C5 witness: the empty message list has no `record` messages and fails. -/
theorem C5_witness : ∃ e, load_fit [] = .error e :=
  C5_no_records_fails [] rfl

/-- C10: a FIT input whose `record` messages carry no `distance` field makes
`load_fit` raise (the missing-channel `KeyError` on `"distance"`, or an
earlier structural error) instead of returning `distance = None`. -/
theorem C10_no_distance_fails (msgs : List Message)
    (h : ∀ fields ∈ messagesOfType msgs "record", fields.lookup "distance" = Option.none) :
    ∃ e, load_fit msgs = .error e := by
  rcases hlf : load_fit msgs with e | p
  · exact ⟨e, rfl⟩
  · obtain ⟨d, r⟩ := p
    obtain ⟨-, -, -, ⟨ds, hds⟩, -⟩ := load_fit_ok_eq msgs d r hlf
    have hk : "distance" ∉ (recordingsOf msgs).map Prod.fst := by
      rw [recordingsOf_keys]
      intro hmem
      obtain ⟨fields, hf, hfk⟩ := mem_recordColumns _ _ hmem
      have h2 := (lookup_isSome_iff fields "distance").mpr hfk
      rw [h fields hf] at h2
      simp at h2
    rw [show dictGet (recordingsOf msgs) "distance" = .error (.keyError "distance") from by
          simp [dictGet, lookup_eq_none_of_not_mem _ _ hk]] at hds
    exact Except.noConfusion hds

/-- C10 witness: on `fitMsgsC` (records without a `distance` field) the
loader fails. -/
theorem C10_witness : ∃ e, load_fit fitMsgsC = .error e :=
  C10_no_distance_fails fitMsgsC (by decide)

/-- C7: without any `sport`-type message `load_fit` fails (the model's
`IndexError` on the first-`sport` access) and returns no result; with one,
`name`, `sport` and `sub_sport` in the output are the corresponding fields of
the first `sport` message. -/
theorem C7_sport_required :
    (∀ msgs, messagesOfType msgs "sport" = [] →
      load_fit msgs = .error (.indexError "sport")) ∧
    (∀ msgs m ms d r, messagesOfType msgs "sport" = m :: ms →
      load_fit msgs = .ok (d, r) →
      ∃ vn vs vss, dictGet m "name" = .ok vn ∧ dictGet m "sport" = .ok vs ∧
        dictGet m "sub_sport" = .ok vss ∧
        d.lookup "name" = some vn ∧ d.lookup "sport" = some vs ∧
        d.lookup "sub_sport" = some vss) := by
  constructor
  · intro msgs h
    simp only [load_fit, h]
    rfl
  · intro msgs m ms d r hm h
    obtain ⟨-, -, -, -, m2, hm2, vn, vs, vss, h1, h2, h3, h4, h5, h6⟩ :=
      load_fit_ok_eq msgs d r h
    rw [hm] at hm2
    have hmm : m = m2 := by simpa [listGetExc, pyIndex] using hm2
    subst hmm
    exact ⟨vn, vs, vss, h1, h2, h3, h4, h5, h6⟩

theorem parse_stats_ok_shape (lines : List String) (st : ActivityMeta)
    (h : _hrmonitorapp_parse_stats lines = .ok st) :
    ∃ ds dur, st = [("datetime_start", Value.dt ds),
                    ("datetime_end", Value.dt (addSeconds ds dur)),
                    ("duration", Value.num ((dur : ℚ)))] := by
  simp only [_hrmonitorapp_parse_stats] at h
  iterate 8 (all_goals try split at h)
  all_goals try exact Except.noConfusion h
  all_goals injection h with h1
  all_goals exact ⟨_, _, h1.symm⟩

theorem dictInsert_keys_of_mem {α : Type} (d : List (String × α)) (k : String) (v : α)
    (h : k ∈ d.map Prod.fst) :
    (dictInsert d k v).map Prod.fst = d.map Prod.fst := by
  unfold dictInsert
  rw [if_pos ((lookup_isSome_iff d k).mpr h)]
  rw [List.map_map]
  apply List.map_congr_left
  intro p hp
  by_cases hpk : p.1 = k
  · simp [Function.comp, hpk]
  · simp [Function.comp, hpk]

theorem dictUpdate_keys {α : Type} (kvs : List (String × α)) : ∀ d : List (String × α),
    (∀ p ∈ kvs, p.1 ∈ d.map Prod.fst) →
    (dictUpdate d kvs).map Prod.fst = d.map Prod.fst := by
  induction kvs with
  | nil => intro d _; rfl
  | cons p rest ih =>
    intro d h
    have h1 : (dictInsert d p.1 p.2).map Prod.fst = d.map Prod.fst :=
      dictInsert_keys_of_mem d p.1 p.2 (h p (by simp))
    have h2 : dictUpdate d (p :: rest) = dictUpdate (dictInsert d p.1 p.2) rest := rfl
    rw [h2, ih (dictInsert d p.1 p.2) (fun q hq => by rw [h1]; exact h q (by simp [hq])), h1]

theorem hrmScanFuel_keys : ∀ (fuel : Nat) (lines : List String) (data : ActivityMeta)
    (recs : Option Recordings) (out : ActivityMeta × Option Recordings),
    data.map Prod.fst = SCHEMA_KEYS →
    hrmScanFuel fuel lines data recs = .ok out →
    out.1.map Prod.fst = SCHEMA_KEYS := by
  intro fuel
  induction fuel with
  | zero => intro lines data recs out hk h; exact Except.noConfusion h
  | succ n ih =>
    intro lines data recs out hk h
    match lines with
    | [] =>
      simp only [hrmScanFuel] at h
      injection h with h1
      rw [← h1]
      exact hk
    | line :: rest =>
      simp only [hrmScanFuel] at h
      split at h
      · split at h
        · exact Except.noConfusion h
        · rename_i stats hstats
          obtain ⟨ds, dur, hshape⟩ := parse_stats_ok_shape _ _ hstats
          have hmem : ∀ p ∈ stats, p.1 ∈ data.map Prod.fst := by
            intro p hp
            rw [hk]
            rw [hshape] at hp
            simp only [List.mem_cons, List.not_mem_nil, or_false] at hp
            rcases hp with rfl | rfl | rfl <;> simp [SCHEMA_KEYS]
          have hupd : (dictUpdate data stats).map Prod.fst = SCHEMA_KEYS :=
            (dictUpdate_keys stats data hmem).trans hk
          exact ih _ _ _ _ hupd h
      · split at h
        · split at h
          · exact Except.noConfusion h
          · exact ih _ _ _ _ hk h
        · exact ih _ _ _ _ hk h

/-- C1, counterexample: on the well-formed FIT input `fitMsgsA`, `load_fit`
succeeds but its metadata mapping has only the 11 keys of `FIT_KEYS`, which
do not include the schema keys `file_hash` and `workout` — so the FIT output
does not contain every key of the canonical schema. -/
theorem C1_counterexample :
    load_fit fitMsgsA = .ok (fitMetaA, fitRecsA) ∧
    fitMetaA.map Prod.fst = FIT_KEYS ∧
    "file_hash" ∉ FIT_KEYS ∧ "workout" ∉ FIT_KEYS ∧
    "file_hash" ∈ SCHEMA_KEYS ∧ "workout" ∈ SCHEMA_KEYS := by
  refine ⟨?_, by decide, by decide, by decide, by decide, by decide⟩
  with_unfolding_all rfl

/-- C1, amended: every successful `load_fit` metadata mapping has exactly the
11 keys `FIT_KEYS` (the canonical schema minus `file_hash` and `workout`),
every successful `load_hrmonitorapp` metadata mapping has exactly the 13
canonical `SCHEMA_KEYS`, and no format introduces a key outside the schema. -/
theorem C1_amended :
    (∀ msgs d r, load_fit msgs = .ok (d, r) → d.map Prod.fst = FIT_KEYS) ∧
    (∀ lines d r, load_hrmonitorapp lines = .ok (d, r) → d.map Prod.fst = SCHEMA_KEYS) ∧
    (∀ k ∈ FIT_KEYS, k ∈ SCHEMA_KEYS) := by
  refine ⟨?_, ?_, by decide⟩
  · intro msgs d r h
    exact (load_fit_ok_eq msgs d r h).2.1
  · intro lines d r h
    simp only [load_hrmonitorapp] at h
    split at h
    · exact Except.noConfusion h
    · rename_i data recordings hscan
      injection h with h1
      injection h1 with hd hr
      subst hd
      exact hrmScanFuel_keys _ _ _ _ _ (by decide) hscan
    · exact Except.noConfusion h

/-- C1 witness: the amended key lists hold on the concrete successful runs
`load_fit fitMsgsA` and `load_hrmonitorapp hrmLinesA`. -/
theorem C1_witness :
    fitMetaA.map Prod.fst = FIT_KEYS ∧ hrmMetaA.map Prod.fst = SCHEMA_KEYS :=
  ⟨C1_amended.1 fitMsgsA fitMetaA fitRecsA (by with_unfolding_all rfl),
   C1_amended.2.1 hrmLinesA hrmMetaA hrmRecsA (by with_unfolding_all rfl)⟩

/-- C7 witness: the theorem applied at the empty message list (no `sport`
message) and at `fitMsgsA`, whose first `sport` message is `sportFieldsA`. -/
theorem C7_witness :
    (load_fit [] = .error (.indexError "sport")) ∧
    (∃ vn vs vss, dictGet sportFieldsA "name" = .ok vn ∧
      dictGet sportFieldsA "sport" = .ok vs ∧ dictGet sportFieldsA "sub_sport" = .ok vss ∧
      fitMetaA.lookup "name" = some vn ∧ fitMetaA.lookup "sport" = some vs ∧
      fitMetaA.lookup "sub_sport" = some vss) :=
  ⟨C7_sport_required.1 [] rfl,
   C7_sport_required.2 fitMsgsA sportFieldsA [] fitMetaA fitRecsA rfl
     (by with_unfolding_all rfl)⟩

/-- C3: on an HRMonitorApp input with a `{Statistics}` section and no
`{History}` section, `load_hrmonitorapp` does not return a pair with empty
recordings — it raises `UnboundLocalError` (`recordings` is never assigned
before `return data, recordings`). -/
theorem C3_no_history_unbound :
    load_hrmonitorapp hrmLinesNoHistory = .error (.unboundLocalError "recordings") := by
  with_unfolding_all rfl

/-- C2, counterexample: on `fitMsgsB`, whose `event` list has a
`timer`/`start` event at 08:00:00 followed by another at 08:05:00, the
returned `datetime_start` is the SECOND matching event's timestamp: the first
matching event does not determine the value and later events do overwrite. -/
theorem C2_counterexample :
    (load_fit fitMsgsB).map (fun p => p.1.lookup "datetime_start") =
      .ok (some (Value.dt ⟨2023, 1, 1, 8, 5, 0⟩)) ∧
    (⟨2023, 1, 1, 8, 5, 0⟩ : PyDatetime) ≠ ⟨2023, 1, 1, 8, 0, 0⟩ :=
  ⟨by with_unfolding_all rfl, by decide⟩

theorem except_match_eta {ε α : Type} (e : Except ε α) :
    (match e with
     | .error er => (.error er : Except ε α)
     | .ok a => .ok a) = e := by
  cases e <;> rfl

theorem scanEventsFrom_append (evs : List (List (String × Value))) :
    ∀ st ev, scanEventsFrom st (evs ++ [ev]) =
      match scanEventsFrom st evs with
      | .error er => .error er
      | .ok st2 => scanEvent st2 ev := by
  induction evs with
  | nil =>
    intro st ev
    simp only [List.nil_append, scanEventsFrom]
    cases scanEvent st ev <;> rfl
  | cons e rest ih =>
    intro st ev
    simp only [List.cons_append, scanEventsFrom]
    cases h : scanEvent st e with
    | error er => rfl
    | ok st2 => exact ih st2 ev

/-- C2, amended: in the FIT event scan the LAST matching `timer` event of
each kind determines the value — appending one more matching `start`
(resp. `stop_all`) event overwrites `datetime_start` (resp. `datetime_end`)
with its timestamp, whatever matching events came before. -/
theorem C2_amended (evs : List (List (String × Value))) (s e : Option Value) (ts : Value)
    (h : scanEvents evs = .ok (s, e)) :
    scanEvents (evs ++ [timerEvent "start" ts]) = .ok (some ts, e) ∧
    scanEvents (evs ++ [timerEvent "stop_all" ts]) = .ok (s, some ts) := by
  unfold scanEvents at h ⊢
  constructor <;> rw [scanEventsFrom_append, h] <;> rfl

/-- C2 witness: the amended theorem applied to the empty event list. -/
theorem C2_witness :
    scanEvents [timerEvent "start" (Value.dt ⟨2023, 1, 1, 8, 0, 0⟩)] =
      .ok (some (Value.dt ⟨2023, 1, 1, 8, 0, 0⟩), Option.none) ∧
    scanEvents [timerEvent "stop_all" (Value.dt ⟨2023, 1, 1, 8, 0, 0⟩)] =
      .ok (Option.none, some (Value.dt ⟨2023, 1, 1, 8, 0, 0⟩)) :=
  C2_amended [] Option.none Option.none _ rfl

/-- C4, counterexample: `"1:2:3"` (3 numeric colon components but only 5
characters) is NOT accepted — the parser's length-8 assertion fails, so the
claim that zero-padding is irrelevant is false. -/
theorem C4_counterexample :
    _hrmonitorapp_duration_to_seconds "1:2:3" = .error .assertionError := by
  rfl

/-- C4, amended: duration parsing requires the value to be exactly 8
characters AND split into exactly 3 colon components; any value violating
either shape assertion (e.g. `"1:2:3"`, which is 5 characters, or `"90:00"`,
which has 2 components) fails with the assertion error (the spec's
`MalformedField`), while a zero-padded `"01:30:00"` parses to 5400. -/
theorem C4_amended :
    (∀ s : String, ¬ (s.length = 8 ∧ (pySplit s ':').length = 3) →
      _hrmonitorapp_duration_to_seconds s = .error .assertionError) ∧
    _hrmonitorapp_duration_to_seconds "1:2:3" = .error .assertionError ∧
    _hrmonitorapp_duration_to_seconds "90:00" = .error .assertionError ∧
    _hrmonitorapp_duration_to_seconds "01:30:00" = .ok 5400 := by
  refine ⟨?_, by rfl, by rfl, by rfl⟩
  intro s h
  unfold _hrmonitorapp_duration_to_seconds
  rw [if_neg h]

/-- C4 witness: the shape hypothesis discharged at `"abc"`. -/
theorem C4_witness : _hrmonitorapp_duration_to_seconds "abc" = .error .assertionError :=
  C4_amended.1 "abc" (by decide)

/-- C6: `load` dispatches to the FIT pipeline exactly when the lower-cased
suffix is `.fit`, to the HRMonitorApp pipeline exactly when the lower-cased
suffix is `.csv` and the file name starts with `user_hr_data_`, and raises
the unsupported-format `ValueError` exactly otherwise — in particular a
`.csv` path without the prefix is rejected. -/
theorem C6_dispatch (path : String) :
    (load_dispatch path = .ok .fit ↔ (pathSuffix path).toLower = ".fit") ∧
    (load_dispatch path = .ok .hrmonitorapp ↔
      ((pathSuffix path).toLower = ".csv" ∧
       (pathName path).startsWith "user_hr_data_" = true)) ∧
    ((∃ e, load_dispatch path = .error e) ↔
      (¬ (pathSuffix path).toLower = ".fit" ∧
       ¬ ((pathSuffix path).toLower = ".csv" ∧
          (pathName path).startsWith "user_hr_data_" = true))) := by
  have hiff : _is_hrmonitorapp_activity path = true ↔
      ((pathSuffix path).toLower = ".csv" ∧
       (pathName path).startsWith "user_hr_data_" = true) := by
    simp [_is_hrmonitorapp_activity]
  unfold load_dispatch
  by_cases h1 : (pathSuffix path).toLower = ".fit"
  · rw [if_pos h1]
    refine ⟨by simp [h1], ?_, ?_⟩
    · constructor
      · intro hok
        exact absurd hok (by simp)
      · rintro ⟨hcsv, -⟩
        rw [h1] at hcsv
        exact absurd hcsv (by decide)
    · constructor
      · rintro ⟨e, he⟩
        exact absurd he (by simp)
      · rintro ⟨hn, -⟩
        exact absurd h1 hn
  · rw [if_neg h1]
    by_cases h2 : _is_hrmonitorapp_activity path = true
    · rw [if_pos h2]
      obtain ⟨hcsv, hpre⟩ := hiff.mp h2
      refine ⟨?_, ?_, ?_⟩
      · constructor
        · intro hok
          exact absurd hok (by simp)
        · intro hfit
          exact absurd hfit h1
      · simp [hcsv, hpre]
      · constructor
        · rintro ⟨e, he⟩
          exact absurd he (by simp)
        · rintro ⟨-, hnot⟩
          exact absurd ⟨hcsv, hpre⟩ hnot
    · rw [if_neg h2]
      refine ⟨?_, ?_, ?_⟩
      · constructor
        · intro h
          exact absurd h (by simp)
        · intro hfit
          exact absurd hfit h1
      · constructor
        · intro h
          exact absurd h (by simp)
        · intro hcp
          exact absurd (hiff.mpr hcp) h2
      · constructor
        · intro _
          exact ⟨h1, fun hcp => h2 (hiff.mpr hcp)⟩
        · intro _
          exact ⟨_, rfl⟩

/-- C8: for any CSV text whose whitespace-delimited tokens parse to the value
list `vals` (milliseconds), the RR extractor returns a sequence of the same
length whose `i`-th element is `vals[i] / 1000` (seconds), order preserved. -/
theorem C8_rr_csv (content : String) (vals : List ℚ)
    (h : np_loadtxt content = .ok vals) :
    ∃ out, load_rr_csv content = .ok out ∧ out.length = vals.length ∧
      ∀ i : Nat, out[i]? = (vals[i]?).map (fun x => x / 1000) := by
  refine ⟨vals.map (fun x => x / 1000), ?_, by simp, ?_⟩
  · simp only [load_rr_csv, load_rr_from_csv, h]
  · intro i
    simp [List.getElem?_map]

/-- C8 witness: the extraction hypothesis discharged on the concrete CSV text
`"1000 2000"`. -/
theorem C8_witness :
    ∃ out, load_rr_csv "1000 2000" = .ok out ∧
      out.length = ([1000, 2000] : List ℚ).length ∧
      ∀ i : Nat, out[i]? = (([1000, 2000] : List ℚ)[i]?).map (fun x => x / 1000) :=
  C8_rr_csv "1000 2000" [1000, 2000] (by with_unfolding_all rfl)

theorem splitChars_ne_nil (sep : Char) (l : List Char) : splitChars sep l ≠ [] := by
  cases l with
  | nil => simp [splitChars]
  | cons c cs =>
    simp only [splitChars]
    split
    · simp
    · split <;> simp

theorem splitChars_not_mem (sep : Char) (l : List Char) (h : sep ∉ l) :
    splitChars sep l = [l] := by
  induction l with
  | nil => rfl
  | cons c cs ih =>
    have hc : c ≠ sep := fun he => h (by simp [he])
    have hcs : sep ∉ cs := fun hm => h (by simp [hm])
    simp only [splitChars, ih hcs]
    rw [if_neg hc]

theorem splitChars_append (sep : Char) (x : List Char) (t : List Char) (hx : sep ∉ x) :
    splitChars sep (x ++ sep :: t) = x :: splitChars sep t := by
  induction x with
  | nil =>
    simp only [List.nil_append, splitChars]
    cases h : splitChars sep t with
    | nil => exact absurd h (splitChars_ne_nil sep t)
    | cons a as => simp [h]
  | cons c cs ih =>
    have hc : c ≠ sep := fun he => hx (by simp [he])
    have hcs : sep ∉ cs := fun hm => hx (by simp [hm])
    show splitChars sep (c :: (cs ++ sep :: t)) = (c :: cs) :: splitChars sep t
    simp only [splitChars]
    rw [ih hcs]
    simp [hc]

theorem not_mem_of_all_digits (l : List Char) (hl : l.all Char.isDigit = true)
    (sep : Char) (hsep : sep.isDigit = false) : sep ∉ l := by
  intro hm
  have h2 := List.all_eq_true.mp hl sep hm
  rw [hsep] at h2
  exact Bool.noConfusion h2

theorem foldl_digits (l : List Char) : ∀ a : Nat,
    l.foldl (fun n c => 10 * n + digVal c) a =
      a * 10 ^ l.length + l.foldl (fun n c => 10 * n + digVal c) 0 := by
  induction l with
  | nil => intro a; simp
  | cons c cs ih =>
    intro a
    simp only [List.foldl_cons, List.length_cons]
    rw [ih (10 * a + digVal c), ih (10 * 0 + digVal c)]
    ring

theorem digitsToNat_20 (yy : List Char) (h : yy.length = 2) :
    digitsToNat ('2' :: '0' :: yy) = 2000 + digitsToNat yy := by
  unfold digitsToNat
  simp only [List.foldl_cons]
  rw [foldl_digits yy, h]
  norm_num [digVal]
  decide

theorem pyInt_digits (l : List Char) (h1 : l ≠ []) (h2 : l.all Char.isDigit = true) :
    pyInt (⟨l⟩ : String) = .ok ((digitsToNat l : Int)) := by
  cases l with
  | nil => exact absurd rfl h1
  | cons c cs =>
    have hc : c.isDigit = true := List.all_eq_true.mp h2 c (by simp)
    have hcne : c ≠ '-' := by
      intro he
      rw [he] at hc
      exact Bool.noConfusion hc
    unfold pyInt
    split
    · rename_i rest heq
      injection heq with he1 he2
      exact absurd he1 hcne
    · rw [if_pos ⟨by simp, h2⟩]

theorem pyFromIso_year (s : String) (dt : PyDatetime) (h : pyFromIso s = .ok dt) :
    ∃ dpart tpart ys ms ds, splitChars ' ' s.data = [dpart, tpart] ∧
      splitChars '-' dpart = [ys, ms, ds] ∧ dt.year = ((digitsToNat ys : Int)) := by
  simp only [pyFromIso] at h
  iterate 6 (all_goals try split at h)
  all_goals try exact Except.noConfusion h
  all_goals injection h with h1
  all_goals subst h1
  all_goals exact ⟨_, _, _, _, _, by assumption, by assumption, rfl⟩

theorem dtdt_year (mm dd yy : List Char) (time_ : String) (dt : PyDatetime)
    (hmm : mm.all Char.isDigit = true) (hdd : dd.all Char.isDigit = true)
    (hyy : yy.all Char.isDigit = true) (hlen : yy.length = 2)
    (h : _hrmonitorapp_date_time_to_datetime
        (⟨mm ++ '/' :: (dd ++ '/' :: yy)⟩ : String) time_ = .ok dt) :
    dt.year = 2000 + ((digitsToNat yy : Int)) := by
  have hmm1 : '/' ∉ mm := not_mem_of_all_digits mm hmm '/' (by decide)
  have hdd1 : '/' ∉ dd := not_mem_of_all_digits dd hdd '/' (by decide)
  have hyy1 : '/' ∉ yy := not_mem_of_all_digits yy hyy '/' (by decide)
  have hps : pySplit (⟨mm ++ '/' :: (dd ++ '/' :: yy)⟩ : String) '/' =
      [(⟨mm⟩ : String), (⟨dd⟩ : String), (⟨yy⟩ : String)] := by
    show (splitChars '/' (mm ++ '/' :: (dd ++ '/' :: yy))).map _ = _
    rw [splitChars_append '/' mm _ hmm1, splitChars_append '/' dd _ hdd1,
        splitChars_not_mem '/' yy hyy1]
    rfl
  simp only [_hrmonitorapp_date_time_to_datetime] at h
  split at h
  case isFalse => exact Except.noConfusion h
  split at h
  case isFalse => exact Except.noConfusion h
  rw [hps] at h
  have h2 : pyFromIso
      (⟨'2' :: '0' :: yy ++ '-' :: (mm ++ '-' :: (dd ++ ' ' :: time_.data))⟩ : String) =
      .ok dt := h
  obtain ⟨dpart, tpart, ys, ms, ds, h3, h4, hyear⟩ := pyFromIso_year _ _ h2
  have h3' : splitChars ' '
      ('2' :: '0' :: yy ++ '-' :: (mm ++ '-' :: (dd ++ ' ' :: time_.data))) =
      [dpart, tpart] := h3
  have hX : '2' :: '0' :: yy ++ '-' :: (mm ++ '-' :: (dd ++ ' ' :: time_.data)) =
      ('2' :: '0' :: (yy ++ '-' :: (mm ++ '-' :: dd))) ++ ' ' :: time_.data := by
    simp
  have hXnosp : ' ' ∉ '2' :: '0' :: (yy ++ '-' :: (mm ++ '-' :: dd)) := by
    intro hmem
    simp only [List.mem_cons, List.mem_append] at hmem
    rcases hmem with h5 | h5 | h5 | h5 | h5 | h5 | h5
    · exact absurd h5 (by decide)
    · exact absurd h5 (by decide)
    · exact not_mem_of_all_digits yy hyy ' ' (by decide) h5
    · exact absurd h5 (by decide)
    · exact not_mem_of_all_digits mm hmm ' ' (by decide) h5
    · exact absurd h5 (by decide)
    · exact not_mem_of_all_digits dd hdd ' ' (by decide) h5
  rw [hX, splitChars_append ' ' _ _ hXnosp] at h3'
  have hdpart : '2' :: '0' :: (yy ++ '-' :: (mm ++ '-' :: dd)) = dpart :=
    (List.cons.injEq _ _ _ _).mp h3' |>.1
  have hdsplit : splitChars '-' dpart = ('2' :: '0' :: yy) :: mm :: [dd] := by
    rw [← hdpart]
    have e1 : '2' :: '0' :: (yy ++ '-' :: (mm ++ '-' :: dd)) =
        ('2' :: '0' :: yy) ++ '-' :: (mm ++ '-' :: dd) := by simp
    have h20 : '-' ∉ '2' :: '0' :: yy := by
      intro hmem
      simp only [List.mem_cons] at hmem
      rcases hmem with h5 | h5 | h5
      · exact absurd h5 (by decide)
      · exact absurd h5 (by decide)
      · exact not_mem_of_all_digits yy hyy '-' (by decide) h5
    rw [e1, splitChars_append '-' _ _ h20,
        splitChars_append '-' mm _ (not_mem_of_all_digits mm hmm '-' (by decide)),
        splitChars_not_mem '-' dd (not_mem_of_all_digits dd hdd '-' (by decide))]
  rw [hdsplit] at h4
  have hys : '2' :: '0' :: yy = ys := ((List.cons.injEq _ _ _ _).mp h4).1
  rw [hyear, ← hys, digitsToNat_20 yy hlen]
  push_cast
  ring

theorem duration_formula (a b c : List Char)
    (ha : a.all Char.isDigit = true) (han : a ≠ [])
    (hb : b.all Char.isDigit = true) (hbn : b ≠ [])
    (hc : c.all Char.isDigit = true) (hcn : c ≠ [])
    (hlen : a.length + b.length + c.length = 6) :
    _hrmonitorapp_duration_to_seconds (⟨a ++ ':' :: (b ++ ':' :: c)⟩ : String) =
      .ok ((digitsToNat a : Int) * 3600 + (digitsToNat b : Int) * 60 +
           (digitsToNat c : Int)) := by
  have ha1 : ':' ∉ a := not_mem_of_all_digits a ha ':' (by decide)
  have hb1 : ':' ∉ b := not_mem_of_all_digits b hb ':' (by decide)
  have hc1 : ':' ∉ c := not_mem_of_all_digits c hc ':' (by decide)
  have hsp : pySplit (⟨a ++ ':' :: (b ++ ':' :: c)⟩ : String) ':' =
      [(⟨a⟩ : String), (⟨b⟩ : String), (⟨c⟩ : String)] := by
    show (splitChars ':' (a ++ ':' :: (b ++ ':' :: c))).map _ = _
    rw [splitChars_append ':' a _ ha1, splitChars_append ':' b _ hb1,
        splitChars_not_mem ':' c hc1]
    rfl
  have hl8 : (⟨a ++ ':' :: (b ++ ':' :: c)⟩ : String).length = 8 := by
    show (a ++ ':' :: (b ++ ':' :: c)).length = 8
    simp only [List.length_append, List.length_cons]
    omega
  unfold _hrmonitorapp_duration_to_seconds
  rw [if_pos ⟨hl8, by rw [hsp]; rfl⟩, hsp]
  simp only [listMapM, pyInt_digits a han ha, pyInt_digits b hbn hb,
    pyInt_digits c hcn hc]

/-- C9: the `{Statistics}` section with `date=01/02/23`, `start=10:00:00`,
`duration=01:30:00` parses to `datetime_start` 2023-01-02T10:00:00,
`duration` 5400 and `datetime_end` 2023-01-02T11:30:00; in general a
two-digit year `YY` is interpreted as year `2000 + YY`, a duration
`hh:mm:ss` evaluates to `hh*3600 + mm*60 + ss` seconds, and every successful
stats parse satisfies `datetime_end = datetime_start + duration` seconds. -/
theorem C9_statistics :
    (_hrmonitorapp_parse_stats ["date,01/02/23", "start,10:00:00", "duration,01:30:00"] =
       .ok [("datetime_start", Value.dt ⟨2023, 1, 2, 10, 0, 0⟩),
            ("datetime_end", Value.dt ⟨2023, 1, 2, 11, 30, 0⟩),
            ("duration", Value.num 5400)]) ∧
    (∀ (mm dd yy : List Char) (time_ : String) (dt : PyDatetime),
      mm.all Char.isDigit = true → dd.all Char.isDigit = true →
      yy.all Char.isDigit = true → yy.length = 2 →
      _hrmonitorapp_date_time_to_datetime
        (⟨mm ++ '/' :: (dd ++ '/' :: yy)⟩ : String) time_ = .ok dt →
      dt.year = 2000 + ((digitsToNat yy : Int))) ∧
    (∀ (a b c : List Char),
      a.all Char.isDigit = true → a ≠ [] → b.all Char.isDigit = true → b ≠ [] →
      c.all Char.isDigit = true → c ≠ [] → a.length + b.length + c.length = 6 →
      _hrmonitorapp_duration_to_seconds (⟨a ++ ':' :: (b ++ ':' :: c)⟩ : String) =
        .ok ((digitsToNat a : Int) * 3600 + (digitsToNat b : Int) * 60 +
             (digitsToNat c : Int))) ∧
    (∀ lines st, _hrmonitorapp_parse_stats lines = .ok st →
      ∃ ds dur, st = [("datetime_start", Value.dt ds),
                      ("datetime_end", Value.dt (addSeconds ds dur)),
                      ("duration", Value.num ((dur : ℚ)))]) := by
  refine ⟨by with_unfolding_all rfl, ?_, ?_, parse_stats_ok_shape⟩
  · intro mm dd yy time_ dt h1 h2 h3 h4 h5
    exact dtdt_year mm dd yy time_ dt h1 h2 h3 h4 h5
  · intro a b c h1 h2 h3 h4 h5 h6 h7
    exact duration_formula a b c h1 h2 h3 h4 h5 h6 h7

/-- C9 witness: the general conjuncts discharged at `01/02/23`,
`01:30:00` and the concrete stats lines. -/
theorem C9_witness :
    ((⟨2023, 1, 2, 10, 0, 0⟩ : PyDatetime).year =
       2000 + ((digitsToNat ['2', '3'] : Int))) ∧
    (_hrmonitorapp_duration_to_seconds
        (⟨['0', '1'] ++ ':' :: (['3', '0'] ++ ':' :: ['0', '0'])⟩ : String) =
      .ok ((digitsToNat ['0', '1'] : Int) * 3600 +
           (digitsToNat ['3', '0'] : Int) * 60 + (digitsToNat ['0', '0'] : Int))) ∧
    (∃ ds dur,
      [("datetime_start", Value.dt (⟨2023, 1, 2, 10, 0, 0⟩ : PyDatetime)),
       ("datetime_end", Value.dt ⟨2023, 1, 2, 11, 30, 0⟩),
       ("duration", Value.num 5400)] =
        [("datetime_start", Value.dt ds),
         ("datetime_end", Value.dt (addSeconds ds dur)),
         ("duration", Value.num ((dur : ℚ)))]) :=
  ⟨C9_statistics.2.1 ['0', '1'] ['0', '2'] ['2', '3'] "10:00:00" ⟨2023, 1, 2, 10, 0, 0⟩
      (by decide) (by decide) (by decide) (by decide) (by with_unfolding_all rfl),
   C9_statistics.2.2.1 ['0', '1'] ['3', '0'] ['0', '0']
      (by decide) (by decide) (by decide) (by decide) (by decide) (by decide) (by decide),
   C9_statistics.2.2.2 ["date,01/02/23", "start,10:00:00", "duration,01:30:00"] _
      (by with_unfolding_all rfl)⟩

/-- C6 witness: the dispatch characterization applied at a concrete prefixed
`.csv` path (accepted as HRMonitorApp) and a concrete non-prefixed `.csv`
path (rejected). -/
theorem C6_witness :
    load_dispatch "dir/user_hr_data_1.csv" = .ok .hrmonitorapp ∧
    ∃ e, load_dispatch "dir/other.csv" = .error e :=
  ⟨(C6_dispatch "dir/user_hr_data_1.csv").2.1.mpr
      ⟨by with_unfolding_all decide, by with_unfolding_all decide⟩,
   (C6_dispatch "dir/other.csv").2.2.mpr
      ⟨by with_unfolding_all decide, by with_unfolding_all decide⟩⟩
